import Mathlib

/-!
Verification of the gem-explorer-app backend dispatcher.

The repository contains two variants of a Vercel serverless handler that
proxies frontend requests to the Gemini generative-language API:
  * `src/unnamed/part_000` — the variant that shapes the provider response
    per action (namespace `Part000` below);
  * `src/api:/gemini.js`  — the variant that forwards the provider JSON
    verbatim on success (namespace `ApiGemini` below).

The embedding models JavaScript values as a `Json` inductive plus `Option`
for `undefined`, exceptions as `Except String`, the provider `fetch` as an
environment-supplied outcome, and `JSON.parse` of the model text as an
environment-supplied partial function.  Each handler returns its HTTP-like
response together with the list of outbound provider calls it performed.
-/

namespace GemExplorer

/-- JSON values as produced by `JSON.parse` and consumed by `res.json`.
Numbers are modelled as integers (all numbers appearing in the repository
are small integer ids). -/
inductive Json where
  | null : Json
  | bool (b : Bool) : Json
  | num (n : Int) : Json
  | str (s : String) : Json
  | arr (elems : List Json) : Json
  | obj (fields : List (String × Json)) : Json

/-- A JavaScript value: `none` models `undefined`. -/
abbrev JsVal := Option Json

/-- Whether a JSON value is `null` (property access on `null` throws). -/
def Json.isNull : Json → Bool
  | Json.null => true
  | _ => false

/-- Property lookup on a JSON value; on non-objects every property reads as
`undefined`, matching JavaScript property access on primitives and arrays
for the property names used by the handlers. -/
def Json.getField : Json → String → JsVal
  | Json.obj fs, k => (fs.find? (fun f => f.1 == k)).map (fun f => f.2)
  | _, _ => none

/-- `v.k` property access: throws a `TypeError` on `undefined` and `null`,
otherwise reads the property (possibly `undefined`). -/
def jsGet (v : JsVal) (k : String) : Except String JsVal :=
  match v with
  | none => Except.error ("TypeError: cannot read properties of undefined (reading " ++ k ++ ")")
  | some j =>
      if j.isNull then
        Except.error ("TypeError: cannot read properties of null (reading " ++ k ++ ")")
      else Except.ok (j.getField k)

/-- `v[i]` index access: throws on `undefined`/`null`; indexes arrays and
strings; any other indexed read is `undefined`. -/
def jsIdx (v : JsVal) (i : Nat) : Except String JsVal :=
  match v with
  | none => Except.error "TypeError: cannot read properties of undefined (indexing)"
  | some Json.null => Except.error "TypeError: cannot read properties of null (indexing)"
  | some (Json.arr xs) => Except.ok (xs.get? i)
  | some (Json.str s) => Except.ok ((s.data.get? i).map (fun c => Json.str (String.singleton c)))
  | some j => Except.ok (j.getField (toString i))

/-- Spread `...v` inside an array literal: arrays yield their elements,
strings their characters; every other value is not iterable and throws. -/
def jsSpread (v : JsVal) : Except String (List Json) :=
  match v with
  | some (Json.arr xs) => Except.ok xs
  | some (Json.str s) => Except.ok (s.data.map (fun c => Json.str (String.singleton c)))
  | _ => Except.error "TypeError: value is not iterable"

/-- Helper for JavaScript `Array.prototype.toString`/`join` which renders a
list of already-stringified elements separated by `sep`. -/
def joinWith (sep : String) : List String → String
  | [] => ""
  | [x] => x
  | x :: y :: xs => x ++ sep ++ joinWith sep (y :: xs)

mutual
/-- JavaScript string coercion `String(v)` for defined values, as used by
template literals in the prompt builders. -/
def jsStringOfJson : Json → String
  | Json.null => "null"
  | Json.bool true => "true"
  | Json.bool false => "false"
  | Json.num n => toString n
  | Json.str s => s
  | Json.arr xs => jsArrDisplay xs
  | Json.obj _ => "[object Object]"

/-- Array-to-string coercion: elements joined by commas. -/
def jsArrDisplay : List Json → String
  | [] => ""
  | [x] => jsArrElemDisplay x
  | x :: y :: xs => jsArrElemDisplay x ++ "," ++ jsArrDisplay (y :: xs)

/-- Inside array coercion, `null` renders as the empty string. -/
def jsArrElemDisplay : Json → String
  | Json.null => ""
  | j => jsStringOfJson j
end

/-- Template-literal coercion of a possibly-`undefined` value. -/
def jsDisplay : JsVal → String
  | none => "undefined"
  | some j => jsStringOfJson j

/-- A lowercase hexadecimal digit, for control-character escapes. -/
def hexDigit (n : Nat) : Char :=
  if n < 10 then Char.ofNat (48 + n) else Char.ofNat (87 + n)

/-- Escaping of one character inside a `JSON.stringify` string literal. -/
def escapeChar (c : Char) : String :=
  if c = '"' then "\\\"" else
  if c = '\\' then "\\\\" else
  if c = '\n' then "\\n" else
  if c = '\t' then "\\t" else
  if c = '\r' then "\\r" else
  if c = '\x08' then "\\b" else
  if c = '\x0c' then "\\f" else
  if c.toNat < 32 then
    "\\u00" ++ String.singleton (hexDigit (c.toNat / 16)) ++
      String.singleton (hexDigit (c.toNat % 16))
  else String.singleton c

/-- A `JSON.stringify` string literal. -/
def quoteStr (s : String) : String :=
  "\"" ++ String.join (s.data.map escapeChar) ++ "\""

mutual
/-- `JSON.stringify` on a defined JSON value. -/
def stringifyJson : Json → String
  | Json.null => "null"
  | Json.bool true => "true"
  | Json.bool false => "false"
  | Json.num n => toString n
  | Json.str s => quoteStr s
  | Json.arr xs => "[" ++ stringifyArr xs ++ "]"
  | Json.obj fs => "\x7b" ++ stringifyFields fs ++ "\x7d"

/-- Stringify the elements of an array, comma separated. -/
def stringifyArr : List Json → String
  | [] => ""
  | [x] => stringifyJson x
  | x :: y :: xs => stringifyJson x ++ "," ++ stringifyArr (y :: xs)

/-- Stringify the fields of an object, comma separated. -/
def stringifyFields : List (String × Json) → String
  | [] => ""
  | [f] => quoteStr f.1 ++ ":" ++ stringifyJson f.2
  | f :: g :: fs => quoteStr f.1 ++ ":" ++ stringifyJson f.2 ++ "," ++ stringifyFields (g :: fs)
end

/-- An object literal whose `undefined`-valued fields are dropped, matching
what `JSON.stringify` (hence `res.json`) puts on the wire. -/
def mkObj (fs : List (String × JsVal)) : Json :=
  Json.obj (fs.filterMap (fun f => f.2.map (fun v => (f.1, v))))

/-- JavaScript strict equality `===` restricted to the values compared by
the handlers: primitives compare by value; an object or array parsed from
the provider text is never reference-identical to one from the request
payload, so composite values compare unequal. -/
def jsStrictEq : JsVal → JsVal → Bool
  | none, none => true
  | some Json.null, some Json.null => true
  | some (Json.bool x), some (Json.bool y) => x == y
  | some (Json.num x), some (Json.num y) => x == y
  | some (Json.str x), some (Json.str y) => x == y
  | _, _ => false

/-- Outcome of the single `fetch` to the provider endpoint.  `errResp`
carries the HTTP status, the `statusText` and the raw error body returned
by `.text()`; `okResp none` models a 2xx response whose body `.json()`
fails to parse. -/
inductive FetchOutcome where
  | netFail : FetchOutcome
  | errResp (status : Nat) (statusText : String) (errorText : String) : FetchOutcome
  | okResp (data : Option Json) : FetchOutcome

/-- The handler environment: the `GEMINI_API_KEY` environment variable, what
the one outbound `fetch` would produce, and the behaviour of `JSON.parse`
on model-produced text. -/
structure Env where
  apiKey : Option String
  fetchOutcome : FetchOutcome
  jsonParse : String → Option Json

/-- An inbound HTTP-like request: method and parsed JSON body. -/
structure Request where
  method : String
  body : JsVal

/-- An HTTP-like response: status code and JSON body. -/
structure HttpResponse where
  status : Nat
  body : Json

/-- One outbound provider call: URL (with the key as query parameter) and
the stringified request body. -/
structure OutboundCall where
  url : String
  body : String

/-- `JSON.parse` applied to the extracted model text.  JavaScript coerces
the argument to a string first (`undefined` becomes "undefined", `42`
becomes "42", and so on), then parses; `parse` is the behaviour of
`JSON.parse` on strings. -/
def jsonParseJs (parse : String → Option Json) (v : JsVal) : Except String Json :=
  match parse (jsDisplay v) with
  | some j => Except.ok j
  | none => Except.error "SyntaxError: unexpected token in JSON"

/-- Object destructuring `const \x7b k \x7d = j` on a parsed JSON value:
throws on `null`, reads the property on objects, `undefined` elsewhere. -/
def jsDestructure (j : Json) (k : String) : Except String JsVal :=
  match j with
  | Json.null => Except.error "TypeError: cannot destructure on null"
  | Json.obj _ => Except.ok (j.getField k)
  | _ => Except.ok none

/-- `data.candidates[0].content.parts[0].text`, shared by both variants. -/
def extractText (data : Json) : Except String JsVal := do
  let cands ← jsGet (some data) "candidates"
  let c0 ← jsIdx cands 0
  let content ← jsGet c0 "content"
  let parts ← jsGet content "parts"
  let p0 ← jsIdx parts 0
  jsGet p0 "text"

/-- `if (!API_KEY)`: the key is falsy when the environment variable is
absent or the empty string. -/
def keyMissing : Option String → Bool
  | none => true
  | some s => s == ""

/-- The provider endpoint up to the `key=` query parameter, shared verbatim
by both variants. -/
def baseUrl : String :=
  "https://generativelanguage.googleapis.com/v1beta/models/gemini-1.5-flash-preview-0527:generateContent?key="

/-- Strict equality `v === s` of the action discriminator against a string
literal, as performed by `switch`/`if` in both variants. -/
def isAction (v : JsVal) (s : String) : Bool :=
  match v with
  | some (Json.str t) => t == s
  | _ => false

/-- Result of the `switch` on the action discriminator: an assembled
request body, an early 400 for an unknown action, or a thrown exception. -/
inductive SwitchResult where
  | body (b : Json) : SwitchResult
  | invalid : SwitchResult
  | exn (msg : String) : SwitchResult

/-- Lift an exception-throwing body assembly into a `SwitchResult`. -/
def SwitchResult.ofExcept : Except String Json → SwitchResult
  | Except.ok b => SwitchResult.body b
  | Except.error e => SwitchResult.exn e

namespace Part000

/-- The fixed system instruction of the filter branch in
`src/unnamed/part_000`. -/
def systemInstructionText : String :=
  "Analyze the user\x27s query to identify relevant product categories and keywords for filtering a product catalog. The possible categories are \x27Design Analysis\x27, \x27Research & Strategy\x27, and \x27Design Generation\x27. RESPOND ONLY WITH a valid JSON object matching the provided schema. Do not include any other text, explanations, or markdown formatting."

/-- The fixed system turn prepended to the filter conversation. -/
def systemTurn : Json :=
  Json.obj [("role", Json.str "system"),
            ("parts", Json.arr [Json.obj [("text", Json.str systemInstructionText)]])]

/-- The fixed response schema of the filter branch. -/
def filterSchema : Json :=
  Json.obj [("type", Json.str "OBJECT"),
            ("properties", Json.obj
              [("category", Json.obj [("type", Json.str "STRING")]),
               ("keywords", Json.obj [("type", Json.str "ARRAY"),
                                      ("items", Json.obj [("type", Json.str "STRING")])])])]

/-- The fixed `generationConfig` of the filter branch. -/
def filterGenerationConfig : Json :=
  Json.obj [("response_mime_type", Json.str "application/json"),
            ("response_schema", filterSchema)]

/-- The fixed response schema of the suggest branch. -/
def suggestSchema : Json :=
  Json.obj [("type", Json.str "OBJECT"),
            ("properties", Json.obj
              [("recommendedId", Json.obj [("type", Json.str "NUMBER")])])]

/-- The fixed `generationConfig` of the suggest branch. -/
def suggestGenerationConfig : Json :=
  Json.obj [("response_mime_type", Json.str "application/json"),
            ("response_schema", suggestSchema)]

/-- The summarize prompt template interpolating the product fields. -/
def summarizePromptText (nameV descV specsV : JsVal) : String :=
  "In a single, concise sentence, summarize what this product does: Name: " ++
    jsDisplay nameV ++ ", Description: " ++ jsDisplay descV ++ ", Specs: " ++ jsDisplay specsV

/-- The suggest prompt template interpolating the user input and the
serialized product list. -/
def suggestPromptText (userInputV : JsVal) (productList : String) : String :=
  "A user needs help with the following task: \"" ++ jsDisplay userInputV ++
    "\". Review this list of available tools: " ++ productList ++
    ". Which one is the absolute best fit for the user\x27s task? Respond with only a valid JSON object containing the ID of the single best product. Example: \x7b \"recommendedId\": 3 \x7d"

/-- `payload.products.map(...)`: `.map` exists only on arrays; any other
receiver throws a `TypeError`. -/
def jsRequireArrayMap (v : JsVal) : Except String (List Json) :=
  match v with
  | some (Json.arr xs) => Except.ok xs
  | none => Except.error "TypeError: cannot read properties of undefined (reading map)"
  | some _ => Except.error "TypeError: map is not a function"

/-- One mapped product entry `(\x7bid: p.id, name: p.name, description:
p.description\x7d)`: the property reads throw a `TypeError` on a `null`
element, and `undefined` fields are dropped by `JSON.stringify`. -/
def mapProduct (p : Json) : Except String Json := do
  let idV ← jsGet (some p) "id"
  let nameV ← jsGet (some p) "name"
  let descV ← jsGet (some p) "description"
  pure (mkObj [("id", idV), ("name", nameV), ("description", descV)])

/-- `payload.products.map(...)` over the elements, left to right, stopping
at the first element whose property read throws. -/
def mapProducts : List Json → Except String (List Json)
  | [] => Except.ok []
  | p :: rest => do
      let m ← mapProduct p
      let ms ← mapProducts rest
      pure (m :: ms)

/-- The `switch (type)` of `src/unnamed/part_000`: assembles the provider
request body, or returns the 400 branch for an unknown type, or records the
exception a malformed payload raises. -/
def buildRequestBody (ty payload : JsVal) : SwitchResult :=
  if isAction ty "filter" then
    SwitchResult.ofExcept (do
      let ch ← jsGet payload "chatHistory"
      let turns ← jsSpread ch
      pure (Json.obj [("contents", Json.arr (systemTurn :: turns)),
                      ("generationConfig", filterGenerationConfig)]))
  else if isAction ty "summarize" then
    SwitchResult.ofExcept (do
      let product ← jsGet payload "product"
      let nameV ← jsGet product "name"
      let descV ← jsGet product "description"
      let specsV ← jsGet product "specs"
      pure (Json.obj [("contents", Json.arr
        [Json.obj [("parts", Json.arr
          [Json.obj [("text", Json.str (summarizePromptText nameV descV specsV))]])]])]))
  else if isAction ty "suggest" then
    SwitchResult.ofExcept (do
      let products ← jsGet payload "products"
      let ps ← jsRequireArrayMap products
      let mapped ← mapProducts ps
      let productList := stringifyJson (Json.arr mapped)
      let userInputV ← jsGet payload "userInput"
      pure (Json.obj [("contents", Json.arr
        [Json.obj [("parts", Json.arr
          [Json.obj [("text", Json.str (suggestPromptText userInputV productList))]])]]),
        ("generationConfig", suggestGenerationConfig)]))
  else SwitchResult.invalid

/-- `aiResponseObject.keywords.join` with a comma separator: `.join` exists only on arrays;
inside it, `null` elements render empty and the rest coerce to strings. -/
def jsJoinCall (v : JsVal) (sep : String) : Except String String :=
  match v with
  | some (Json.arr xs) => Except.ok (joinWith sep (xs.map jsArrElemDisplay))
  | none => Except.error "TypeError: cannot read properties of undefined (reading join)"
  | some _ => Except.error "TypeError: join is not a function"

/-- The confirmation sentence template of the filter branch. -/
def filterMessageText (category joined : String) : String :=
  "Sure! I\x27m filtering for products in the \x27" ++ category ++
    "\x27 category or related to these keywords: " ++ joined ++ ". Here are the results."

/-- Filter success path: parse the model text, derive the confirmation
sentence, and shape the 200 body. -/
def filterSuccessBody (parse : String → Option Json) (aiText : JsVal) : Except String Json := do
  let aiObj ← jsonParseJs parse aiText
  let categoryV ← jsGet (some aiObj) "category"
  let keywordsV ← jsGet (some aiObj) "keywords"
  let joined ← jsJoinCall keywordsV ", "
  pure (Json.obj [("aiResponseObject", aiObj),
                  ("modelChatMessage", Json.str (filterMessageText (jsDisplay categoryV) joined))])

/-- `allProducts.find(p => p.id === recommendedId)`: a linear scan whose
callback reads `p.id` (throwing on a `null` element) and compares with
strict equality. -/
def jsFindById (xs : List Json) (recId : JsVal) : Except String JsVal :=
  match xs with
  | [] => Except.ok none
  | p :: rest => do
      let pid ← jsGet (some p) "id"
      if jsStrictEq pid recId then Except.ok (some p) else jsFindById rest recId

/-- `.find` exists only on arrays. -/
def jsFindCall (v : JsVal) (recId : JsVal) : Except String JsVal :=
  match v with
  | some (Json.arr xs) => jsFindById xs recId
  | none => Except.error "TypeError: cannot read properties of undefined (reading find)"
  | some _ => Except.error "TypeError: find is not a function"

/-- Suggest success path: parse the model text, destructure
`recommendedId`, scan the caller-supplied product list, and shape the 200
body (the field is dropped when no product matches). -/
def suggestSuccessBody (parse : String → Option Json) (aiText payload : JsVal) :
    Except String Json := do
  let aiObj ← jsonParseJs parse aiText
  let recId ← jsDestructure aiObj "recommendedId"
  let allProducts ← jsGet payload "products"
  let found ← jsFindCall allProducts recId
  pure (mkObj [("recommendedProduct", found)])

/-- Processing after the single `fetch`: the non-2xx branch throws with the
provider `statusText` only, the success branch extracts the first
candidate text and shapes the per-action response. -/
def afterFetch (env : Env) (ty payload : JsVal) : Except String HttpResponse :=
  match env.fetchOutcome with
  | FetchOutcome.netFail => Except.error "TypeError: fetch failed"
  | FetchOutcome.errResp _ statusText _ =>
      Except.error ("Gemini API Error: " ++ statusText)
  | FetchOutcome.okResp none => Except.error "SyntaxError: response body is not valid JSON"
  | FetchOutcome.okResp (some data) => do
      let aiText ← extractText data
      if isAction ty "filter" then
        let b ← filterSuccessBody env.jsonParse aiText
        pure ⟨200, b⟩
      else if isAction ty "summarize" then
        pure ⟨200, mkObj [("summary", aiText)]⟩
      else if isAction ty "suggest" then
        let b ← suggestSuccessBody env.jsonParse aiText payload
        pure ⟨200, b⟩
      else
        pure ⟨200, Json.null⟩

/-- The generic catch-all body of the variant. -/
def genericErrorBody : Json :=
  Json.obj [("error", Json.str "An error occurred while processing the AI request.")]

/-- The `try` block: destructure `req.body`, run the switch, perform the
single `fetch` when a body was assembled, and post-process.  Returns the
outcome together with the outbound calls actually performed. -/
def tryBlock (env : Env) (key : String) (req : Request) :
    Except String HttpResponse × List OutboundCall :=
  match req.body with
  | none => (Except.error "TypeError: cannot destructure req.body", [])
  | some b =>
    if b.isNull then (Except.error "TypeError: cannot destructure req.body", []) else
    let ty := b.getField "type"
    let payload := b.getField "payload"
    match buildRequestBody ty payload with
    | SwitchResult.invalid =>
        (Except.ok ⟨400, Json.obj [("error", Json.str "Invalid request type")]⟩, [])
    | SwitchResult.exn e => (Except.error e, [])
    | SwitchResult.body rb =>
        (afterFetch env ty payload, [⟨baseUrl ++ key, stringifyJson rb⟩])

/-- The handler of `src/unnamed/part_000`: method check, credential check,
then the `try`/`catch` around the dispatch. -/
def handler (env : Env) (req : Request) : HttpResponse × List OutboundCall :=
  if req.method ≠ "POST" then
    (⟨405, Json.obj [("error", Json.str "Method Not Allowed")]⟩, [])
  else if keyMissing env.apiKey then
    (⟨500, Json.obj [("error", Json.str "API key is not configured.")]⟩, [])
  else
    match tryBlock env (env.apiKey.getD "") req with
    | (Except.ok resp, calls) => (resp, calls)
    | (Except.error _, calls) => (⟨500, genericErrorBody⟩, calls)

end Part000

namespace ApiGemini

/-- An `undefined` array element serializes as `null` under
`JSON.stringify`, which is how the assembled `contents` go on the wire. -/
def jsonOrNull (v : JsVal) : Json := v.getD Json.null

/-- The `switch (action)` of `src/api:/gemini.js`: the filter branch builds
the conversation from the caller-supplied system instruction, chat history,
latest user message and response schema; summarize and suggest share a
single pass-through prompt branch. -/
def buildRequestBody (action payload : JsVal) : SwitchResult :=
  if isAction action "filter" then
    SwitchResult.ofExcept (do
      let sysI ← jsGet payload "systemInstruction"
      let ch ← jsGet payload "chatHistory"
      let turns ← jsSpread ch
      let um ← jsGet payload "userMessage"
      let schema ← jsGet payload "responseSchema"
      pure (Json.obj [("contents", Json.arr
              (jsonOrNull sysI :: turns ++
                [Json.obj [("role", Json.str "user"),
                           ("parts", Json.arr [mkObj [("text", um)]])]])),
            ("generationConfig", mkObj
              [("response_mime_type", some (Json.str "application/json")),
               ("response_schema", schema)])]))
  else if isAction action "summarize" || isAction action "suggest" then
    SwitchResult.ofExcept (do
      let pr ← jsGet payload "prompt"
      pure (Json.obj [("contents", Json.arr
        [Json.obj [("parts", Json.arr [mkObj [("text", pr)]])]])]))
  else SwitchResult.invalid

/-- The `try` block of `src/api:/gemini.js`: destructure, switch, single
`fetch`, and on success forward the provider JSON verbatim.  The non-2xx
branch throws with the numeric provider status only. -/
def tryBlock (env : Env) (key : String) (req : Request) :
    Except String HttpResponse × List OutboundCall :=
  match req.body with
  | none => (Except.error "TypeError: cannot destructure request.body", [])
  | some b =>
    if b.isNull then (Except.error "TypeError: cannot destructure request.body", []) else
    let action := b.getField "action"
    let payload := b.getField "payload"
    match buildRequestBody action payload with
    | SwitchResult.invalid =>
        (Except.ok ⟨400, Json.obj [("error", Json.str "Invalid action specified.")]⟩, [])
    | SwitchResult.exn e => (Except.error e, [])
    | SwitchResult.body rb =>
        let calls := [OutboundCall.mk (baseUrl ++ key) (stringifyJson rb)]
        match env.fetchOutcome with
        | FetchOutcome.netFail => (Except.error "TypeError: fetch failed", calls)
        | FetchOutcome.errResp st _ _ =>
            (Except.error ("Gemini API request failed with status " ++ toString st), calls)
        | FetchOutcome.okResp none =>
            (Except.error "SyntaxError: response body is not valid JSON", calls)
        | FetchOutcome.okResp (some data) => (Except.ok ⟨200, data⟩, calls)

/-- The catch-all body of the variant, exposing the exception message as
`details`. -/
def internalErrorBody (msg : String) : Json :=
  Json.obj [("error", Json.str "An internal server error occurred."),
            ("details", Json.str msg)]

/-- The handler of `src/api:/gemini.js`. -/
def handler (env : Env) (req : Request) : HttpResponse × List OutboundCall :=
  if req.method ≠ "POST" then
    (⟨405, Json.obj [("message", Json.str "Method Not Allowed")]⟩, [])
  else if keyMissing env.apiKey then
    (⟨500, Json.obj [("error", Json.str "GEMINI_API_KEY is not configured on the server.")]⟩, [])
  else
    match tryBlock env (env.apiKey.getD "") req with
    | (Except.ok resp, calls) => (resp, calls)
    | (Except.error msg, calls) => (⟨500, internalErrorBody msg⟩, calls)

end ApiGemini

/-! Helper definitions used only to state the verified properties. -/

/-- A provider success body whose first part of the first candidate is
`firstPart`, with arbitrary further parts and candidates. -/
def providerDataFull (firstPart : Json) (restParts restCands : List Json) : Json :=
  Json.obj [("candidates", Json.arr
    (Json.obj [("content", Json.obj [("parts", Json.arr (firstPart :: restParts))])]
      :: restCands))]

/-- A provider success body with a single candidate carrying text `t`. -/
def providerData (t : Json) : Json :=
  providerDataFull (Json.obj [("text", t)]) [] []

/-- A POST request in the shape consumed by `src/unnamed/part_000`. -/
def postReqType (ty : String) (payload : Json) : Request :=
  ⟨"POST", some (Json.obj [("type", Json.str ty), ("payload", payload)])⟩

/-- A POST request in the shape consumed by `src/api:/gemini.js`. -/
def postReqAction (a : String) (payload : Json) : Request :=
  ⟨"POST", some (Json.obj [("action", Json.str a), ("payload", payload)])⟩

/-- A `JSON.parse` behaviour that fails on every input. -/
def noParse : String → Option Json := fun _ => none

/-- A `JSON.parse` behaviour returning a fixed value on every input. -/
def constParse (j : Json) : String → Option Json := fun _ => some j

/-- An environment whose single outbound call comes back with a non-2xx
status. -/
def errEnv (k : String) (st : Nat) (statusText errText : String)
    (parse : String → Option Json) : Env :=
  ⟨some k, FetchOutcome.errResp st statusText errText, parse⟩

/-- The predicate of the suggest linear scan:
`p.id === recommendedId` for a numeric recommended id. -/
def recommendedMatch (n : Int) (p : Json) : Bool :=
  jsStrictEq (p.getField "id") (some (Json.num n))

/-- An environment whose single outbound call succeeds with one candidate
of text `s`, and whose `JSON.parse` is `parse`. -/
def stubEnv (k s : String) (parse : String → Option Json) : Env :=
  ⟨some k, FetchOutcome.okResp (some (providerData (Json.str s))), parse⟩

/-- A well-formed suggest request for `src/unnamed/part_000`. -/
def suggestReq (u : String) (ps : List Json) : Request :=
  postReqType "suggest" (Json.obj [("userInput", Json.str u), ("products", Json.arr ps)])

/-- A well-formed filter request for `src/unnamed/part_000`. -/
def filterReq (turns : List Json) : Request :=
  postReqType "filter" (Json.obj [("chatHistory", Json.arr turns)])

/-- `t` occurs inside `s` as a contiguous substring. -/
def StrContains (s t : String) : Prop :=
  ∃ a b : List Char, s.data = a ++ t.data ++ b

/-! Supporting lemmas. -/

theorem isAction_eq_false {v : JsVal} {s : String} (h : v ≠ some (Json.str s)) :
    isAction v s = false := by
  cases v with
  | none => rfl
  | some j =>
    cases j with
    | str t =>
      have hts : t ≠ s := fun hc => h (by rw [hc])
      simp [isAction, hts]
    | null => rfl
    | bool b => rfl
    | num n => rfl
    | arr xs => rfl
    | obj fs => rfl

theorem isNull_eq_true_iff (b : Json) : b.isNull = true ↔ b = Json.null := by
  cases b <;> simp [Json.isNull]

theorem jsStrictEq_num_iff (v : JsVal) (n : Int) :
    (jsStrictEq v (some (Json.num n)) = true) ↔ v = some (Json.num n) := by
  rcases v with _ | j
  · simp [jsStrictEq]
  · cases j <;> simp [jsStrictEq]

theorem jsFindById_eq_find (ps : List Json) (n : Int)
    (h : ∀ p ∈ ps, p.isNull = false) :
    Part000.jsFindById ps (some (Json.num n)) = Except.ok (ps.find? (recommendedMatch n)) := by
  induction ps with
  | nil => rfl
  | cons p rest ih =>
    have hp : p.isNull = false := h p (List.mem_cons_self p rest)
    have hrest : ∀ q ∈ rest, q.isNull = false := fun q hq => h q (List.mem_cons_of_mem p hq)
    by_cases hm : recommendedMatch n p = true
    · have hm' : jsStrictEq (p.getField "id") (some (Json.num n)) = true := hm
      simp [Part000.jsFindById, jsGet, hp, hm',
        List.find?_cons_of_pos _ hm, Bind.bind, Except.bind]
    · have hm' : jsStrictEq (p.getField "id") (some (Json.num n)) = false := by
        simpa [recommendedMatch] using hm
      simp [Part000.jsFindById, jsGet, hp, hm', List.find?_cons_of_neg _ hm,
        ih hrest, Bind.bind, Except.bind]

theorem part000_tryBlock_calls_le_one (env : Env) (key : String) (req : Request) :
    (Part000.tryBlock env key req).2.length ≤ 1 := by
  unfold Part000.tryBlock
  rcases req with ⟨m, body⟩
  rcases body with _ | b
  · simp
  · dsimp only
    by_cases hb : b.isNull
    · simp [hb]
    · simp only [hb, Bool.false_eq_true, if_false]
      rcases hbr : Part000.buildRequestBody (b.getField "type") (b.getField "payload")
        with rb | _ | e <;> simp [hbr]

theorem apiGemini_tryBlock_calls_le_one (env : Env) (key : String) (req : Request) :
    (ApiGemini.tryBlock env key req).2.length ≤ 1 := by
  unfold ApiGemini.tryBlock
  rcases req with ⟨m, body⟩
  rcases body with _ | b
  · simp
  · dsimp only
    by_cases hb : b.isNull
    · simp [hb]
    · simp only [hb, Bool.false_eq_true, if_false]
      rcases hbr : ApiGemini.buildRequestBody (b.getField "action") (b.getField "payload")
        with rb | _ | e <;>
        rcases env.fetchOutcome with _ | ⟨st, stx, etx⟩ | ⟨_ | d⟩ <;> simp [hbr]

theorem part000_calls_le_one (env : Env) (req : Request) :
    (Part000.handler env req).2.length ≤ 1 := by
  unfold Part000.handler
  split
  · simp
  · split
    · simp
    · have h := part000_tryBlock_calls_le_one env (env.apiKey.getD "") req
      rcases htb : Part000.tryBlock env (env.apiKey.getD "") req with ⟨r, calls⟩
      rw [htb] at h
      rcases r with r | e <;> simpa using h

theorem apiGemini_calls_le_one (env : Env) (req : Request) :
    (ApiGemini.handler env req).2.length ≤ 1 := by
  unfold ApiGemini.handler
  split
  · simp
  · split
    · simp
    · have h := apiGemini_tryBlock_calls_le_one env (env.apiKey.getD "") req
      rcases htb : ApiGemini.tryBlock env (env.apiKey.getD "") req with ⟨r, calls⟩
      rw [htb] at h
      rcases r with r | e <;> simpa using h

theorem mapProducts_ok (ps : List Json) (h : ∀ p ∈ ps, p.isNull = false) :
    Part000.mapProducts ps = Except.ok (ps.map (fun p =>
      mkObj [("id", p.getField "id"), ("name", p.getField "name"),
             ("description", p.getField "description")])) := by
  induction ps with
  | nil => rfl
  | cons p rest ih =>
    have hp : p.isNull = false := h p (List.mem_cons_self p rest)
    have hrest : ∀ q ∈ rest, q.isNull = false := fun q hq => h q (List.mem_cons_of_mem p hq)
    simp [Part000.mapProducts, Part000.mapProduct, jsGet, hp, ih hrest,
      Bind.bind, Except.bind, pure, Except.pure]

theorem jsArrElemDisplay_str (x : String) : jsArrElemDisplay (Json.str x) = x := by
  simp [jsArrElemDisplay, jsStringOfJson]

theorem map_comp_jsArrElemDisplay_str (ks : List String) :
    List.map (jsArrElemDisplay ∘ Json.str) ks = ks := by
  induction ks with
  | nil => rfl
  | cons x xs ih => simp [jsArrElemDisplay_str, ih]

theorem strContains_joinWith (sep : String) (ks : List String) (t : String)
    (ht : t ∈ ks) : StrContains (joinWith sep ks) t := by
  induction ks with
  | nil => cases ht
  | cons x rest ih =>
    rcases rest with _ | ⟨y, xs⟩
    · rcases ht with _ | ⟨_, h⟩
      · exact ⟨[], [], by simp [joinWith]⟩
      · cases h
    · rcases ht with _ | ⟨_, h⟩
      · exact ⟨[], (sep ++ joinWith sep (y :: xs)).data,
          by simp [joinWith, String.data_append]⟩
      · obtain ⟨a, b, hab⟩ := ih h
        exact ⟨(x ++ sep).data ++ a, b,
          by simp [joinWith, String.data_append, hab]⟩

theorem strContains_filterMessage_category (c j : String) :
    StrContains (Part000.filterMessageText c j) c :=
  ⟨"Sure! I\x27m filtering for products in the \x27".data,
   ("\x27 category or related to these keywords: " ++ j ++ ". Here are the results.").data,
   by simp [Part000.filterMessageText, String.data_append]⟩

theorem strContains_filterMessage_of_joined (c j t : String) (h : StrContains j t) :
    StrContains (Part000.filterMessageText c j) t := by
  obtain ⟨a, b, hab⟩ := h
  exact ⟨("Sure! I\x27m filtering for products in the \x27" ++ c ++
            "\x27 category or related to these keywords: ").data ++ a,
         b ++ ". Here are the results.".data,
         by simp [Part000.filterMessageText, String.data_append, hab]⟩

/-! Claim theorems. -/

/-- C1 counterexample: a POST request with the key configured and the valid
action `suggest`, but with a payload carrying no `products` field, passes
the method, credential and action checks and yet performs zero outbound
calls: `payload.products.map` throws before `fetch` and the catch block
answers 500. -/
theorem one_call_per_request_counterexample :
    (postReqType "suggest" (Json.obj [])).method = "POST" ∧
    keyMissing (some "key") = false ∧
    (Json.obj [("type", Json.str "suggest"), ("payload", Json.obj [])]).getField "type"
      = some (Json.str "suggest") ∧
    (Part000.handler ⟨some "key", FetchOutcome.netFail, noParse⟩
      (postReqType "suggest" (Json.obj []))).2 = [] ∧
    (Part000.handler ⟨some "key", FetchOutcome.netFail, noParse⟩
      (postReqType "suggest" (Json.obj []))).1.status = 500 :=
  ⟨rfl, rfl, rfl, rfl, rfl⟩

/-- C1 amended: every inbound request performs at most one outbound call in
both variants (no retries under any outcome); and every request that passes
the method and credential checks, has a destructurable body, and whose
switch branch assembles a provider request body without throwing performs
exactly one outbound call. -/
theorem one_call_per_request (env : Env) (req : Request) :
    ((Part000.handler env req).2.length ≤ 1 ∧ (ApiGemini.handler env req).2.length ≤ 1) ∧
    (∀ b rb, req.method = "POST" → keyMissing env.apiKey = false → req.body = some b →
      Part000.buildRequestBody (b.getField "type") (b.getField "payload") = SwitchResult.body rb →
      (Part000.handler env req).2.length = 1) ∧
    (∀ b rb, req.method = "POST" → keyMissing env.apiKey = false → req.body = some b →
      ApiGemini.buildRequestBody (b.getField "action") (b.getField "payload") = SwitchResult.body rb →
      (ApiGemini.handler env req).2.length = 1) := by
  refine ⟨⟨part000_calls_le_one env req, apiGemini_calls_le_one env req⟩, ?_, ?_⟩
  · intro b rb hm hk hb hbd
    by_cases hbn : b.isNull
    · exfalso
      rw [(isNull_eq_true_iff b).1 hbn] at hbd
      simp [Part000.buildRequestBody, isAction, Json.getField] at hbd
    · rcases haf : Part000.afterFetch env (b.getField "type") (b.getField "payload")
        with r | e <;>
        simp [Part000.handler, hm, hk, Part000.tryBlock, hb, hbn, hbd, haf]
  · intro b rb hm hk hb hbd
    by_cases hbn : b.isNull
    · exfalso
      rw [(isNull_eq_true_iff b).1 hbn] at hbd
      simp [ApiGemini.buildRequestBody, isAction, Json.getField] at hbd
    · rcases hf : env.fetchOutcome with _ | ⟨st, stx, etx⟩ | ⟨_ | d⟩ <;>
        simp [ApiGemini.handler, hm, hk, ApiGemini.tryBlock, hb, hbn, hbd, hf]

theorem one_call_per_request_witness :
    (Part000.handler ⟨some "key", FetchOutcome.netFail, noParse⟩
      (postReqType "summarize" (Json.obj [("product", Json.obj [])]))).2.length = 1 ∧
    (ApiGemini.handler ⟨some "key", FetchOutcome.netFail, noParse⟩
      (postReqAction "summarize" (Json.obj [("prompt", Json.str "p")]))).2.length = 1 :=
  ⟨(one_call_per_request ⟨some "key", FetchOutcome.netFail, noParse⟩
      (postReqType "summarize" (Json.obj [("product", Json.obj [])]))).2.1 _ _ rfl rfl rfl rfl,
   (one_call_per_request ⟨some "key", FetchOutcome.netFail, noParse⟩
      (postReqAction "summarize" (Json.obj [("prompt", Json.str "p")]))).2.2 _ _ rfl rfl rfl rfl⟩

/-- C6: every exception raised inside the try block of a POST request with
the key configured — malformed payload, model text failing JSON parsing, or
a network failure — is caught and converted into the fixed
status-500 internal-error response; the full response equality shows no
partial result reaches the caller. -/
theorem catch_converts_to_500 (env : Env) (req : Request) (m : String)
    (calls : List OutboundCall)
    (hm : req.method = "POST") (hk : keyMissing env.apiKey = false) :
    (Part000.tryBlock env (env.apiKey.getD "") req = (Except.error m, calls) →
      Part000.handler env req = (⟨500, Part000.genericErrorBody⟩, calls)) ∧
    (ApiGemini.tryBlock env (env.apiKey.getD "") req = (Except.error m, calls) →
      ApiGemini.handler env req = (⟨500, ApiGemini.internalErrorBody m⟩, calls)) := by
  constructor <;> intro htry <;>
    simp [Part000.handler, ApiGemini.handler, hm, hk, htry]

theorem catch_converts_to_500_witness :
    (Part000.handler ⟨some "key", FetchOutcome.okResp (some (providerData (Json.str "oops"))), noParse⟩
        (postReqType "filter" (Json.obj [("chatHistory", Json.arr [])]))
      = (⟨500, Part000.genericErrorBody⟩,
         (Part000.tryBlock
           ⟨some "key", FetchOutcome.okResp (some (providerData (Json.str "oops"))), noParse⟩ "key"
           (postReqType "filter" (Json.obj [("chatHistory", Json.arr [])]))).2)) ∧
    (ApiGemini.handler ⟨some "key", FetchOutcome.netFail, noParse⟩
        (postReqAction "summarize" (Json.obj [("prompt", Json.str "p")]))
      = (⟨500, ApiGemini.internalErrorBody "TypeError: fetch failed"⟩,
         (ApiGemini.tryBlock ⟨some "key", FetchOutcome.netFail, noParse⟩ "key"
           (postReqAction "summarize" (Json.obj [("prompt", Json.str "p")]))).2)) :=
  ⟨(catch_converts_to_500
      ⟨some "key", FetchOutcome.okResp (some (providerData (Json.str "oops"))), noParse⟩
      (postReqType "filter" (Json.obj [("chatHistory", Json.arr [])]))
      "SyntaxError: unexpected token in JSON" _ rfl rfl).1 rfl,
   (catch_converts_to_500 ⟨some "key", FetchOutcome.netFail, noParse⟩
      (postReqAction "summarize" (Json.obj [("prompt", Json.str "p")]))
      "TypeError: fetch failed" _ rfl rfl).2 rfl⟩

/-- C5: when the outbound provider call returns a non-2xx status and the
handler did perform the call, the response status is 500 in both variants
and the body equals a value that does not depend on the raw provider error
text (`errText` occurs nowhere in the right-hand sides): `part_000` answers
its fixed generic body, `gemini.js` a message built from the numeric status
only.  The raw error body is only consumed by server-side logging. -/
theorem upstream_error_hidden (k statusText errText : String) (st : Nat)
    (parse : String → Option Json) (req : Request) :
    ((Part000.handler (errEnv k st statusText errText parse) req).2 ≠ [] →
      (Part000.handler (errEnv k st statusText errText parse) req).1.status = 500 ∧
      (Part000.handler (errEnv k st statusText errText parse) req).1.body
        = Part000.genericErrorBody) ∧
    ((ApiGemini.handler (errEnv k st statusText errText parse) req).2 ≠ [] →
      (ApiGemini.handler (errEnv k st statusText errText parse) req).1.status = 500 ∧
      (ApiGemini.handler (errEnv k st statusText errText parse) req).1.body
        = ApiGemini.internalErrorBody ("Gemini API request failed with status " ++ toString st)) := by
  constructor
  · intro hcalls
    by_cases hm : req.method = "POST"
    · by_cases hke : (k == "") = true
      · exact absurd (by simp [Part000.handler, hm, errEnv, keyMissing, hke]) hcalls
      · rcases hbody : req.body with _ | b
        · exact absurd (by simp [Part000.handler, hm, errEnv, keyMissing, hke,
            Part000.tryBlock, hbody]) hcalls
        · by_cases hbn : b.isNull
          · exact absurd (by simp [Part000.handler, hm, errEnv, keyMissing, hke,
              Part000.tryBlock, hbody, hbn]) hcalls
          · rcases hbr : Part000.buildRequestBody (b.getField "type") (b.getField "payload")
              with rb | _ | e
            · simp [Part000.handler, hm, errEnv, keyMissing, hke, Part000.tryBlock,
                hbody, hbn, hbr, Part000.afterFetch]
            · exact absurd (by simp [Part000.handler, hm, errEnv, keyMissing, hke,
                Part000.tryBlock, hbody, hbn, hbr]) hcalls
            · exact absurd (by simp [Part000.handler, hm, errEnv, keyMissing, hke,
                Part000.tryBlock, hbody, hbn, hbr]) hcalls
    · exact absurd (by simp [Part000.handler, hm]) hcalls
  · intro hcalls
    by_cases hm : req.method = "POST"
    · by_cases hke : (k == "") = true
      · exact absurd (by simp [ApiGemini.handler, hm, errEnv, keyMissing, hke]) hcalls
      · rcases hbody : req.body with _ | b
        · exact absurd (by simp [ApiGemini.handler, hm, errEnv, keyMissing, hke,
            ApiGemini.tryBlock, hbody]) hcalls
        · by_cases hbn : b.isNull
          · exact absurd (by simp [ApiGemini.handler, hm, errEnv, keyMissing, hke,
              ApiGemini.tryBlock, hbody, hbn]) hcalls
          · rcases hbr : ApiGemini.buildRequestBody (b.getField "action") (b.getField "payload")
              with rb | _ | e
            · simp [ApiGemini.handler, hm, errEnv, keyMissing, hke, ApiGemini.tryBlock,
                hbody, hbn, hbr]
            · exact absurd (by simp [ApiGemini.handler, hm, errEnv, keyMissing, hke,
                ApiGemini.tryBlock, hbody, hbn, hbr]) hcalls
            · exact absurd (by simp [ApiGemini.handler, hm, errEnv, keyMissing, hke,
                ApiGemini.tryBlock, hbody, hbn, hbr]) hcalls
    · exact absurd (by simp [ApiGemini.handler, hm]) hcalls

theorem upstream_error_hidden_witness :
    ((Part000.handler (errEnv "key" 429 "Too Many Requests" "secret upstream detail" noParse)
        (postReqType "summarize" (Json.obj [("product", Json.obj [])]))).1.status = 500 ∧
     (Part000.handler (errEnv "key" 429 "Too Many Requests" "secret upstream detail" noParse)
        (postReqType "summarize" (Json.obj [("product", Json.obj [])]))).1.body
       = Part000.genericErrorBody) ∧
    ((ApiGemini.handler (errEnv "key" 429 "Too Many Requests" "secret upstream detail" noParse)
        (postReqAction "summarize" (Json.obj [("prompt", Json.str "p")]))).1.status = 500 ∧
     (ApiGemini.handler (errEnv "key" 429 "Too Many Requests" "secret upstream detail" noParse)
        (postReqAction "summarize" (Json.obj [("prompt", Json.str "p")]))).1.body
       = ApiGemini.internalErrorBody ("Gemini API request failed with status " ++ toString 429)) :=
  ⟨(upstream_error_hidden "key" "Too Many Requests" "secret upstream detail" 429 noParse
      (postReqType "summarize" (Json.obj [("product", Json.obj [])]))).1
      (fun hh => absurd (congrArg List.length hh) (by decide)),
   (upstream_error_hidden "key" "Too Many Requests" "secret upstream detail" 429 noParse
      (postReqAction "summarize" (Json.obj [("prompt", Json.str "p")]))).2
      (fun hh => absurd (congrArg List.length hh) (by decide))⟩

/-- C4: for every summarize request on `src/unnamed/part_000` where the
provider succeeds, the first part of the first candidate text `t` is returned
verbatim as the `summary` field with status 200, with no JSON parsing of
the text (the response carries `t` itself, whatever string it is). -/
theorem summarize_returns_text (k t : String) (prod : Json)
    (restParts restCands : List Json) (parse : String → Option Json)
    (hk : (k == "") = false) (hprod : prod.isNull = false) :
    (Part000.handler
      ⟨some k, FetchOutcome.okResp (some (providerDataFull
          (Json.obj [("text", Json.str t)]) restParts restCands)), parse⟩
      (postReqType "summarize" (Json.obj [("product", prod)]))).1
      = ⟨200, Json.obj [("summary", Json.str t)]⟩ := by
  cases prod
  case null => simp [Json.isNull] at hprod
  all_goals
    simp [Part000.handler, Part000.tryBlock, Part000.buildRequestBody, Part000.afterFetch,
      postReqType, providerDataFull, keyMissing, hk, isAction, Json.getField,
      jsGet, extractText, jsIdx, jsSpread, mkObj, SwitchResult.ofExcept,
      Bind.bind, Except.bind, Functor.map, Except.map, Json.isNull, pure, Except.pure]

theorem summarize_returns_text_witness :
    (Part000.handler
      ⟨some "key", FetchOutcome.okResp (some (providerDataFull
          (Json.obj [("text", Json.str "A one-sentence summary.")]) [] [])), noParse⟩
      (postReqType "summarize" (Json.obj [("product",
        Json.obj [("name", Json.str "X"), ("description", Json.str "Y"),
                  ("specs", Json.str "Z")])]))).1
      = ⟨200, Json.obj [("summary", Json.str "A one-sentence summary.")]⟩ :=
  summarize_returns_text "key" "A one-sentence summary."
    (Json.obj [("name", Json.str "X"), ("description", Json.str "Y"), ("specs", Json.str "Z")])
    [] [] noParse rfl rfl

/-- C2: for every suggest request on `src/unnamed/part_000` whose provider
response parses to a `recommendedId` of `n`: the status is 200, the body
carries the first product of the caller-supplied list whose `id` strictly
equals `n` (linear scan); when some product has that id the recommended product of the response equals that product object, and when none does the
`recommendedProduct` field is absent from the body and no error is
raised. -/
theorem suggest_lookup (k u s : String) (ps : List Json) (n : Int)
    (parse : String → Option Json) (hk : (k == "") = false)
    (hnull : ∀ p ∈ ps, p.isNull = false)
    (hparse : parse s = some (Json.obj [("recommendedId", Json.num n)])) :
    (Part000.handler (stubEnv k s parse) (suggestReq u ps)).1.status = 200 ∧
    (Part000.handler (stubEnv k s parse) (suggestReq u ps)).1.body
      = mkObj [("recommendedProduct", ps.find? (recommendedMatch n))] ∧
    (∀ p, ps.find? (recommendedMatch n) = some p →
      (Part000.handler (stubEnv k s parse) (suggestReq u ps)).1.body
        = Json.obj [("recommendedProduct", p)]) ∧
    ((∃ p ∈ ps, p.getField "id" = some (Json.num n)) →
      ∃ p ∈ ps, p.getField "id" = some (Json.num n) ∧
        (Part000.handler (stubEnv k s parse) (suggestReq u ps)).1.body
          = Json.obj [("recommendedProduct", p)]) ∧
    ((∀ p ∈ ps, p.getField "id" ≠ some (Json.num n)) →
      (Part000.handler (stubEnv k s parse) (suggestReq u ps)).1.body = Json.obj []) := by
  have hbody : (Part000.handler (stubEnv k s parse) (suggestReq u ps)).1
      = ⟨200, mkObj [("recommendedProduct", ps.find? (recommendedMatch n))]⟩ := by
    simp only [stubEnv, suggestReq, postReqType, providerData, providerDataFull]
    simp [Part000.handler, Part000.tryBlock, Part000.buildRequestBody, Part000.afterFetch,
      Part000.suggestSuccessBody, Part000.jsFindCall, Part000.jsRequireArrayMap,
      jsFindById_eq_find ps n hnull, mapProducts_ok ps hnull, keyMissing, hk,
      isAction, Json.getField, jsGet, extractText, jsIdx, jsonParseJs, jsDisplay,
      jsStringOfJson, hparse, jsDestructure, Json.isNull,
      SwitchResult.ofExcept, Bind.bind, Except.bind, Functor.map, Except.map, pure, Except.pure]
  refine ⟨by rw [hbody], by rw [hbody], ?_, ?_, ?_⟩
  · intro p hfind
    rw [hbody]
    simp [mkObj, hfind]
  · rintro ⟨p, hp, hid⟩
    have hsome : (ps.find? (recommendedMatch n)).isSome := by
      rw [List.find?_isSome]
      exact ⟨p, hp, by simp [recommendedMatch, jsStrictEq_num_iff, hid]⟩
    obtain ⟨q, hq⟩ := Option.isSome_iff_exists.1 hsome
    refine ⟨q, List.mem_of_find?_eq_some hq, ?_, ?_⟩
    · have := List.find?_some hq
      rwa [recommendedMatch, jsStrictEq_num_iff] at this
    · rw [hbody]
      simp [mkObj, hq]
  · intro hnone
    have hfn : ps.find? (recommendedMatch n) = none := by
      rw [List.find?_eq_none]
      intro p hp
      simp [recommendedMatch, jsStrictEq_num_iff]
      exact hnone p hp
    rw [hbody]
    simp [mkObj, hfn]

theorem suggest_lookup_witness :
    (Part000.handler (stubEnv "key" "resp" (constParse (Json.obj [("recommendedId", Json.num 3)])))
        (suggestReq "need"
          [Json.obj [("id", Json.num 1), ("name", Json.str "a")],
           Json.obj [("id", Json.num 3), ("name", Json.str "b")]])).1.status = 200 ∧
    (Part000.handler (stubEnv "key" "resp" (constParse (Json.obj [("recommendedId", Json.num 3)])))
        (suggestReq "need"
          [Json.obj [("id", Json.num 1), ("name", Json.str "a")],
           Json.obj [("id", Json.num 3), ("name", Json.str "b")]])).1.body
      = mkObj [("recommendedProduct",
          [Json.obj [("id", Json.num 1), ("name", Json.str "a")],
           Json.obj [("id", Json.num 3), ("name", Json.str "b")]].find? (recommendedMatch 3))] ∧
    (∀ p,
      [Json.obj [("id", Json.num 1), ("name", Json.str "a")],
       Json.obj [("id", Json.num 3), ("name", Json.str "b")]].find? (recommendedMatch 3) = some p →
      (Part000.handler (stubEnv "key" "resp" (constParse (Json.obj [("recommendedId", Json.num 3)])))
        (suggestReq "need"
          [Json.obj [("id", Json.num 1), ("name", Json.str "a")],
           Json.obj [("id", Json.num 3), ("name", Json.str "b")]])).1.body
        = Json.obj [("recommendedProduct", p)]) ∧
    ((∃ p ∈ [Json.obj [("id", Json.num 1), ("name", Json.str "a")],
             Json.obj [("id", Json.num 3), ("name", Json.str "b")]],
        p.getField "id" = some (Json.num 3)) →
      ∃ p ∈ [Json.obj [("id", Json.num 1), ("name", Json.str "a")],
             Json.obj [("id", Json.num 3), ("name", Json.str "b")]],
        p.getField "id" = some (Json.num 3) ∧
        (Part000.handler (stubEnv "key" "resp" (constParse (Json.obj [("recommendedId", Json.num 3)])))
          (suggestReq "need"
            [Json.obj [("id", Json.num 1), ("name", Json.str "a")],
             Json.obj [("id", Json.num 3), ("name", Json.str "b")]])).1.body
          = Json.obj [("recommendedProduct", p)]) ∧
    ((∀ p ∈ [Json.obj [("id", Json.num 1), ("name", Json.str "a")],
             Json.obj [("id", Json.num 3), ("name", Json.str "b")]],
        p.getField "id" ≠ some (Json.num 3)) →
      (Part000.handler (stubEnv "key" "resp" (constParse (Json.obj [("recommendedId", Json.num 3)])))
        (suggestReq "need"
          [Json.obj [("id", Json.num 1), ("name", Json.str "a")],
           Json.obj [("id", Json.num 3), ("name", Json.str "b")]])).1.body = Json.obj []) :=
  suggest_lookup "key" "need" "resp"
    [Json.obj [("id", Json.num 1), ("name", Json.str "a")],
     Json.obj [("id", Json.num 3), ("name", Json.str "b")]] 3
    (constParse (Json.obj [("recommendedId", Json.num 3)])) rfl (by decide) rfl

/-- C3: for every filter request on `src/unnamed/part_000` where the
provider succeeds with text parsing to a category `c` and a keyword list
`ks`, the response has status 200, its `aiResponseObject` equals the parsed
object, and its `modelChatMessage` contains both the category name and
every keyword of the list. -/
theorem filter_response (k s c : String) (ks : List String) (turns : List Json)
    (parse : String → Option Json) (hk : (k == "") = false)
    (hparse : parse s = some (Json.obj [("category", Json.str c),
        ("keywords", Json.arr (ks.map Json.str))])) :
    (Part000.handler (stubEnv k s parse) (filterReq turns)).1.status = 200 ∧
    (Part000.handler (stubEnv k s parse) (filterReq turns)).1.body
      = Json.obj [("aiResponseObject",
            Json.obj [("category", Json.str c), ("keywords", Json.arr (ks.map Json.str))]),
          ("modelChatMessage",
            Json.str (Part000.filterMessageText c (joinWith ", " ks)))] ∧
    StrContains (Part000.filterMessageText c (joinWith ", " ks)) c ∧
    (∀ kw ∈ ks, StrContains (Part000.filterMessageText c (joinWith ", " ks)) kw) := by
  have hbody : (Part000.handler (stubEnv k s parse) (filterReq turns)).1
      = ⟨200, Json.obj [("aiResponseObject",
            Json.obj [("category", Json.str c), ("keywords", Json.arr (ks.map Json.str))]),
          ("modelChatMessage",
            Json.str (Part000.filterMessageText c (joinWith ", " ks)))]⟩ := by
    simp only [stubEnv, filterReq, postReqType, providerData, providerDataFull]
    simp [Part000.handler, Part000.tryBlock, Part000.buildRequestBody, Part000.afterFetch,
      Part000.filterSuccessBody, Part000.jsJoinCall, map_comp_jsArrElemDisplay_str,
      keyMissing, hk, isAction, Json.getField, jsGet, extractText, jsIdx, jsSpread,
      jsonParseJs, hparse, jsDisplay, jsStringOfJson, Json.isNull,
      SwitchResult.ofExcept, Bind.bind, Except.bind, Functor.map, Except.map, pure, Except.pure]
  refine ⟨by rw [hbody], by rw [hbody], strContains_filterMessage_category c (joinWith ", " ks), ?_⟩
  intro kw hkw
  exact strContains_filterMessage_of_joined c (joinWith ", " ks) kw
    (strContains_joinWith ", " ks kw hkw)

theorem filter_response_witness :
    (Part000.handler (stubEnv "key" "resp" (constParse (Json.obj
        [("category", Json.str "Research & Strategy"),
         ("keywords", Json.arr (["ergonomics", "budget"].map Json.str))])))
      (filterReq [])).1.status = 200 ∧
    (Part000.handler (stubEnv "key" "resp" (constParse (Json.obj
        [("category", Json.str "Research & Strategy"),
         ("keywords", Json.arr (["ergonomics", "budget"].map Json.str))])))
      (filterReq [])).1.body
      = Json.obj [("aiResponseObject",
            Json.obj [("category", Json.str "Research & Strategy"),
                      ("keywords", Json.arr (["ergonomics", "budget"].map Json.str))]),
          ("modelChatMessage",
            Json.str (Part000.filterMessageText "Research & Strategy"
              (joinWith ", " ["ergonomics", "budget"])))] ∧
    StrContains (Part000.filterMessageText "Research & Strategy"
      (joinWith ", " ["ergonomics", "budget"])) "Research & Strategy" ∧
    (∀ kw ∈ ["ergonomics", "budget"],
      StrContains (Part000.filterMessageText "Research & Strategy"
        (joinWith ", " ["ergonomics", "budget"])) kw) :=
  filter_response "key" "resp" "Research & Strategy" ["ergonomics", "budget"] []
    (constParse (Json.obj [("category", Json.str "Research & Strategy"),
      ("keywords", Json.arr (["ergonomics", "budget"].map Json.str))])) rfl rfl

/-- C7: for every inbound request whose method is not POST, both handler
variants respond with status 405 and perform no outbound call to the
provider. -/
theorem non_post_rejected (env : Env) (req : Request) (h : req.method ≠ "POST") :
    ((Part000.handler env req).1.status = 405 ∧ (Part000.handler env req).2 = []) ∧
    ((ApiGemini.handler env req).1.status = 405 ∧ (ApiGemini.handler env req).2 = []) := by
  simp [Part000.handler, ApiGemini.handler, h]

theorem non_post_rejected_witness :
    ((Part000.handler ⟨some "key", FetchOutcome.netFail, noParse⟩ ⟨"GET", none⟩).1.status = 405 ∧
      (Part000.handler ⟨some "key", FetchOutcome.netFail, noParse⟩ ⟨"GET", none⟩).2 = []) ∧
    ((ApiGemini.handler ⟨some "key", FetchOutcome.netFail, noParse⟩ ⟨"GET", none⟩).1.status = 405 ∧
      (ApiGemini.handler ⟨some "key", FetchOutcome.netFail, noParse⟩ ⟨"GET", none⟩).2 = []) :=
  non_post_rejected _ _ (by decide)

/-- C8: for every POST request handled while the provider API key is absent
from the environment, both handler variants respond with status 500 and
perform no outbound call to the provider. -/
theorem missing_key_rejected (env : Env) (req : Request)
    (hm : req.method = "POST") (hk : env.apiKey = none) :
    ((Part000.handler env req).1.status = 500 ∧ (Part000.handler env req).2 = []) ∧
    ((ApiGemini.handler env req).1.status = 500 ∧ (ApiGemini.handler env req).2 = []) := by
  simp [Part000.handler, ApiGemini.handler, hm, hk, keyMissing]

theorem missing_key_rejected_witness :
    ((Part000.handler ⟨none, FetchOutcome.netFail, noParse⟩ ⟨"POST", none⟩).1.status = 500 ∧
      (Part000.handler ⟨none, FetchOutcome.netFail, noParse⟩ ⟨"POST", none⟩).2 = []) ∧
    ((ApiGemini.handler ⟨none, FetchOutcome.netFail, noParse⟩ ⟨"POST", none⟩).1.status = 500 ∧
      (ApiGemini.handler ⟨none, FetchOutcome.netFail, noParse⟩ ⟨"POST", none⟩).2 = []) :=
  missing_key_rejected _ _ rfl rfl

/-- C9: for every POST request whose readable action/type discriminator is
none of filter, summarize or suggest, both handler variants respond with
status 400 and perform no outbound call to the provider. -/
theorem invalid_action_rejected (env : Env) (req : Request) (b : Json)
    (hm : req.method = "POST") (hk : keyMissing env.apiKey = false)
    (hb : req.body = some b) (hnn : b.isNull = false) :
    ((b.getField "type" ≠ some (Json.str "filter") →
      b.getField "type" ≠ some (Json.str "summarize") →
      b.getField "type" ≠ some (Json.str "suggest") →
      (Part000.handler env req).1.status = 400 ∧ (Part000.handler env req).2 = []) ∧
     (b.getField "action" ≠ some (Json.str "filter") →
      b.getField "action" ≠ some (Json.str "summarize") →
      b.getField "action" ≠ some (Json.str "suggest") →
      (ApiGemini.handler env req).1.status = 400 ∧ (ApiGemini.handler env req).2 = [])) := by
  constructor
  · intro h1 h2 h3
    simp [Part000.handler, hm, hk, Part000.tryBlock, hb, hnn, Part000.buildRequestBody,
          isAction_eq_false h1, isAction_eq_false h2, isAction_eq_false h3]
  · intro h1 h2 h3
    simp [ApiGemini.handler, hm, hk, ApiGemini.tryBlock, hb, hnn, ApiGemini.buildRequestBody,
          isAction_eq_false h1, isAction_eq_false h2, isAction_eq_false h3]

/-- C10: in `src/unnamed/part_000`, the provider request body assembled for
a filter request depends only on the `chatHistory` property of the payload (plus
the fixed system turn and the fixed generation config): any two payloads
whose `chatHistory` reads equal — in particular payloads differing only in
a `userMessage` field — assemble identical outbound bodies. -/
theorem filter_body_depends_only_on_chatHistory (p1 p2 : JsVal)
    (h : jsGet p1 "chatHistory" = jsGet p2 "chatHistory") :
    Part000.buildRequestBody (some (Json.str "filter")) p1
      = Part000.buildRequestBody (some (Json.str "filter")) p2 := by
  simp [Part000.buildRequestBody, isAction, h]

theorem filter_body_depends_only_on_chatHistory_witness :
    Part000.buildRequestBody (some (Json.str "filter"))
        (some (Json.obj [("chatHistory", Json.arr [Json.obj [("role", Json.str "user")]]),
                         ("userMessage", Json.str "first wording")]))
      = Part000.buildRequestBody (some (Json.str "filter"))
        (some (Json.obj [("chatHistory", Json.arr [Json.obj [("role", Json.str "user")]]),
                         ("userMessage", Json.str "second wording")])) :=
  filter_body_depends_only_on_chatHistory _ _ rfl

theorem invalid_action_rejected_witness :
    ((Part000.handler ⟨some "key", FetchOutcome.netFail, noParse⟩
        ⟨"POST", some (Json.obj [("type", Json.str "bogus")])⟩).1.status = 400 ∧
      (Part000.handler ⟨some "key", FetchOutcome.netFail, noParse⟩
        ⟨"POST", some (Json.obj [("type", Json.str "bogus")])⟩).2 = []) ∧
    ((ApiGemini.handler ⟨some "key", FetchOutcome.netFail, noParse⟩
        ⟨"POST", some (Json.obj [("type", Json.str "bogus")])⟩).1.status = 400 ∧
      (ApiGemini.handler ⟨some "key", FetchOutcome.netFail, noParse⟩
        ⟨"POST", some (Json.obj [("type", Json.str "bogus")])⟩).2 = []) := by
  have h := invalid_action_rejected ⟨some "key", FetchOutcome.netFail, noParse⟩
      ⟨"POST", some (Json.obj [("type", Json.str "bogus")])⟩
      (Json.obj [("type", Json.str "bogus")]) rfl rfl rfl rfl
  exact ⟨h.1 (by simp [Json.getField]) (by simp [Json.getField]) (by simp [Json.getField]),
         h.2 (by simp [Json.getField]) (by simp [Json.getField]) (by simp [Json.getField])⟩

end GemExplorer
